import Mathlib

/-!
Shallow embedding of the `galdi` filesystem-snapshot tool:
the shared data model (`galdi_core/src/snapshot.rs`, `plumbah.rs`, `diff.rs`,
`error.rs`), the checksum layer (`galdi_core/src/checksum.rs`), the scanner
(`galdi_core/src/fs_scan.rs`), the diff engine (`galdi_diff/src/diff.rs`),
the batch applications (`galdi_snapshot/src/app.rs`, `galdi_diff/src/app.rs`)
and the JSONL streaming writer (`galdi_snapshot/src/output.rs`).

Modelling conventions:
- Rust `PathBuf` is modelled as `String`; `DateTime<Utc>` as `Int`
  (only equality of timestamps is ever inspected by the code under study).
- Filesystem interaction is modelled by passing the walker's item stream
  (`ignore::WalkParallel` results) explicitly as a
  `List (Except ScanError DirEntryData)`: this is exactly how
  `Scanner::scan` / `Scanner::scan_iter` consume the walk.
- Wall-clock metadata (`execution_time_ms`, `timestamp`) is not represented:
  no claim inspects it and it is nondeterministic side data.
-/

namespace Galdi

/-- `EntryType` from `galdi_core/src/snapshot.rs`. -/
inductive EntryType
  | undefined
  | file
  | directory
  | symlink
deriving DecidableEq, Repr

/-- `Status` from `galdi_core/src/plumbah.rs`; the Rust `Partial` variant is
named `part` here. -/
inductive Status
  | ok
  | error
  | part
deriving DecidableEq, Repr

/-- `ChecksumAlgorithm` from `galdi_core/src/snapshot.rs`.  The enum in that
file has exactly these two variants (`XXH3_64`, `Sha256`), even though
`galdi_core/src/checksum.rs` and the test generators also refer to a
`ChecksumAlgorithm::Blake3` variant. -/
inductive ChecksumAlgorithm
  | xxh3_64
  | sha256
deriving DecidableEq, Repr

/-- `SnapshotEntry` from `galdi_core/src/snapshot.rs`. -/
structure SnapshotEntry where
  path : String
  entry_type : EntryType
  size : Option Nat
  mode : Option String
  mtime : Int
  checksum : Option String
  target : Option String
deriving DecidableEq, Repr

/-- `PlumbahError` from `galdi_core/src/plumbah.rs`.  The `context` map is
kept as an association list; the code only ever produces `none`. -/
structure PlumbahError where
  code : String
  message : String
  path : Option String
  recoverable : Bool
  context : Option (List (String × String))
deriving DecidableEq, Repr

/-- `StreamSummary` from `galdi_core/src/plumbah.rs`. -/
structure StreamSummary where
  total : Nat
  processed : Nat
  errors : Nat
deriving DecidableEq, Repr

/-- `Meta` from `galdi_core/src/plumbah.rs` (semantic flags, level and tool
identity; wall-clock fields and the extra/profiles maps are not modelled,
no claim inspects them). -/
structure Meta where
  idempotent : Bool
  mutates : Bool
  safe : Bool
  deterministic : Bool
  plumbah_level : Nat
  tool : String
  tool_version : String
deriving DecidableEq, Repr

/-- `Meta::new` from `galdi_core/src/plumbah.rs` (argument order as in the
source: tool, tool_version, idempotent, mutates, safe, deterministic). -/
def Meta.new (tool tool_version : String)
    (idempotent mutates safe deterministic : Bool) : Meta :=
  { idempotent := idempotent
    mutates := mutates
    safe := safe
    deterministic := deterministic
    plumbah_level := 2
    tool := tool
    tool_version := tool_version }

/-- `PlumbahObject` from `galdi_core/src/plumbah.rs`. -/
structure PlumbahObject where
  version : String
  stream : Option String
  status : Status
  meta : Option Meta
  errors : Option (List PlumbahError)
  summary : Option StreamSummary
  execution_time_ms : Option Nat
deriving DecidableEq, Repr

/-- `PlumbahObject::new` from `galdi_core/src/plumbah.rs`. -/
def PlumbahObject.new (status : Status) (meta : Meta) : PlumbahObject :=
  { version := "1.0"
    stream := none
    status := status
    meta := some meta
    errors := none
    summary := none
    execution_time_ms := none }

/-- `PlumbahObject::with_errors` from `galdi_core/src/plumbah.rs`. -/
def PlumbahObject.with_errors (p : PlumbahObject) (errors : List PlumbahError) :
    PlumbahObject :=
  { p with errors := some errors }

/-- `Snapshot` from `galdi_core/src/snapshot.rs`. -/
structure Snapshot where
  plumbah : PlumbahObject
  version : String
  root : String
  checksum_algorithm : ChecksumAlgorithm
  count : Nat
  entries : List SnapshotEntry
deriving DecidableEq, Repr

/-- `DiffSummary` from `galdi_core/src/diff.rs`. -/
structure DiffSummary where
  added : Nat
  removed : Nat
  modified : Nat
  unchanged : Nat
deriving DecidableEq, Repr

/-- `ChangeType` from `galdi_core/src/diff.rs`. -/
inductive ChangeType
  | added
  | removed
  | modified
  | permission_denied
deriving DecidableEq, Repr

/-- `AttributeChange` from `galdi_core/src/diff.rs`. -/
inductive AttributeChange
  | content
  | mode
  | mtime
  | type
  | size
  | target
deriving DecidableEq, Repr

/-- `Difference` from `galdi_core/src/diff.rs`. -/
structure Difference where
  path : String
  change_type : ChangeType
  changes : List AttributeChange
  source : Option SnapshotEntry
  target : Option SnapshotEntry
  error : Option String
deriving DecidableEq, Repr

/-- `DiffResult` from `galdi_core/src/diff.rs`. -/
structure DiffResult where
  plumbah : PlumbahObject
  identical : Bool
  summary : DiffSummary
  differences : List Difference
deriving DecidableEq, Repr

/-- `ScanError` from `galdi_core/src/error.rs` (`Io` is named `ioErr`). -/
inductive ScanError
  | pathNotFound (path : String)
  | permissionDenied (path : String)
  | ioErr (message : String)
  | symlinkLoop (path : String)
deriving DecidableEq, Repr

/-- `ScanError::to_plumbah_error` from `galdi_core/src/error.rs`. -/
def ScanError.to_plumbah_error : ScanError → PlumbahError
  | .pathNotFound p =>
      { code := "PATH_NOT_FOUND", message := "Path not found: " ++ p
        path := some p, recoverable := false, context := none }
  | .permissionDenied p =>
      { code := "PERMISSION_DENIED", message := "Permission denied: " ++ p
        path := some p, recoverable := false, context := none }
  | .ioErr m =>
      { code := "IO_ERROR", message := m
        path := none, recoverable := false, context := none }
  | .symlinkLoop p =>
      { code := "SYMLINK_LOOP", message := "Symlink loop detected at: " ++ p
        path := some p, recoverable := false, context := none }

/-! ## Checksum layer (`galdi_core/src/checksum.rs`, `snapshot.rs` `FromStr`) -/

/-- ASCII lowercasing of one character (the effect of Rust
`str::to_lowercase` on the algorithm names involved, which are ASCII). -/
def asciiLower (c : Char) : Char :=
  if 'A' ≤ c ∧ c ≤ 'Z' then Char.ofNat (c.toNat + 32) else c

/-- String lowercasing used by `ChecksumAlgorithm::from_str`
(`s.to_lowercase()` in `galdi_core/src/snapshot.rs`). -/
def strToLower (s : String) : String :=
  String.mk (s.data.map asciiLower)

/-- `impl FromStr for ChecksumAlgorithm` from `galdi_core/src/snapshot.rs`:
only `"xxh3_64"` and `"sha256"` (case-insensitively) parse; everything else —
including `"blake3"` — is rejected. -/
def ChecksumAlgorithm.fromStr (s : String) : Except String ChecksumAlgorithm :=
  match strToLower s with
  | "xxh3_64" => .ok .xxh3_64
  | "sha256" => .ok .sha256
  | _ => .error ("Invalid checksum algorithm: " ++ s)

/-- Lowercase hex rendering of `n`, zero-padded on the left to `w` digits:
the effect of Rust `format!("{:0w$x}", n)`. -/
def hexPad (w : Nat) (n : Nat) : String :=
  let s := Nat.toDigits 16 n
  String.mk (List.replicate (w - s.length) '0' ++ s)

/-- `XXH3_64Hasher::hash_file` output format from
`galdi_core/src/checksum.rs` (`format!("xxh3_64:{:016x}", digest)`); the
64-bit digest itself comes from the external `xxhash_rust` crate and is
abstracted as the input. -/
def XXH3_64Hasher.format (digest : Nat) : String :=
  "xxh3_64:" ++ hexPad 16 (digest % 2 ^ 64)

/-- `Sha256Hasher::hash_file` output format from `galdi_core/src/checksum.rs`
(`format!("sha256:{:064x}", digest)`); the 256-bit digest comes from the
external `sha2` crate. -/
def Sha256Hasher.format (digest : Nat) : String :=
  "sha256:" ++ hexPad 64 (digest % 2 ^ 256)

/-- `Blake3Hasher::hash_file` output format from `galdi_core/src/checksum.rs`
(`format!("blake3:{}", hash.to_hex())`, a 64-char lowercase hex digest of the
256-bit digest from the external `blake3` crate). -/
def Blake3Hasher.format (digest : Nat) : String :=
  "blake3:" ++ hexPad 64 (digest % 2 ^ 256)

/-- `get_hasher` from `galdi_core/src/checksum.rs`, restricted to the
variants that actually exist in the `ChecksumAlgorithm` enum of
`galdi_core/src/snapshot.rs`.  The source also has a
`ChecksumAlgorithm::Blake3 => Box::new(Blake3Hasher)` arm, which has no
counterpart in that enum. -/
def get_hasher : ChecksumAlgorithm → (Nat → String)
  | .xxh3_64 => XXH3_64Hasher.format
  | .sha256 => Sha256Hasher.format

/-! ## Scanner (`galdi_core/src/fs_scan.rs`)

The parallel walker (`ignore::WalkBuilder`) is external; the scanner consumes
its item stream.  A walk item is either a walker-level error or a directory
entry; a directory entry is modelled by the results of the fallible probes
`create_entry` performs on it. -/

/-- View of `Except` as a sum, to derive decidable equality. -/
def exceptToSum : Except ε α → ε ⊕ α
  | .error e => .inl e
  | .ok a => .inr a

instance {ε α : Type} [DecidableEq ε] [DecidableEq α] : DecidableEq (Except ε α) :=
  fun a b =>
    decidable_of_iff (exceptToSum a = exceptToSum b)
      (by cases a <;> cases b <;> simp [exceptToSum])

/-- The slice of `std::fs::Metadata` that `create_entry` reads.
`modified` is fallible in Rust (`metadata.modified()?`). -/
structure Metadata where
  is_dir : Bool
  is_symlink : Bool
  is_file : Bool
  len : Nat
  permissions : Nat
  modified : Except ScanError Int
deriving DecidableEq, Repr

/-- One `ignore::DirEntry` as consumed by `ScannerRef::create_entry`: the
results of its fallible probes (`entry.metadata()`, the
`strip_prefix(root)` of its path, hashing its content, `read_link`). -/
structure DirEntryData where
  metadata : Except ScanError Metadata
  relPath : Except ScanError String
  checksumResult : Except ScanError String
  linkTarget : Except ScanError String
deriving DecidableEq, Repr

/-- `ScannerRef` from `galdi_core/src/fs_scan.rs`. -/
structure ScannerRef where
  root : String
  checksum_algorithm : ChecksumAlgorithm
  normalize_paths : Bool
deriving DecidableEq, Repr

/-- `to_unix_like_string` from `galdi_core/src/fs_scan.rs`
(`replace(MAIN_SEPARATOR, "/")`; the platform separator is a parameter). -/
def to_unix_like_string (sep : Char) (p : String) : String :=
  String.mk (p.data.map (fun c => if c = sep then '/' else c))

/-- The platform path separator (Unix build: `MAIN_SEPARATOR = '/'`). -/
def mainSeparator : Char := '/'

/-- `format_mode` from `galdi_core/src/fs_scan.rs`, Unix branch
(`format!("{:o}", mode & 0o7777)`). -/
def format_mode (m : Metadata) : String :=
  String.mk (Nat.toDigits 8 (m.permissions % 2 ^ 12))

/-- `ScannerRef::create_entry` from `galdi_core/src/fs_scan.rs`.  Rust's `?`
early returns are embedded as explicit matches on each fallible probe, in
the evaluation order of the source (metadata, strip-prefixed path, checksum
for files, modification time, symlink target). -/
def ScannerRef.create_entry (s : ScannerRef) (entry : DirEntryData) :
    Except ScanError SnapshotEntry :=
  match entry.metadata with
  | .error e => .error e
  | .ok metadata =>
  match entry.relPath with
  | .error e => .error e
  | .ok relative_path =>
  let entry_type :=
    if metadata.is_dir then EntryType.directory
    else if metadata.is_symlink then EntryType.symlink
    else if metadata.is_file then EntryType.file
    else EntryType.undefined
  match (if entry_type = EntryType.file then entry.checksumResult.map some
         else .ok none) with
  | .error e => .error e
  | .ok checksum =>
  match metadata.modified with
  | .error e => .error e
  | .ok mtime =>
  match (if entry_type = EntryType.symlink then entry.linkTarget.map some
         else .ok none) with
  | .error e => .error e
  | .ok target =>
  .ok
    { path :=
        if s.normalize_paths then to_unix_like_string mainSeparator relative_path
        else relative_path
      entry_type := entry_type
      size := some metadata.len
      mode := some (format_mode metadata)
      mtime := mtime
      checksum := checksum
      target := target }

/-- Version string baked in at build time (`env!("CARGO_PKG_VERSION")`);
its value is immaterial to every claim. -/
def toolVersion : String := "0.1.0"

/-- Lexicographic order on character lists: the order Rust's
`PathBuf::cmp` induces on the (single-component, relative) entry paths the
scanner and diff engine sort by. -/
def charListLe : List Char → List Char → Bool
  | [], _ => true
  | _ :: _, [] => false
  | a :: as, b :: bs => if a = b then charListLe as bs else decide (a.toNat < b.toNat)

/-- Path comparison used by `entries.sort_by(|a, b| a.path.cmp(&b.path))`
and `differences.sort_by(...)`. -/
def pathLe (a b : String) : Bool := charListLe a.data b.data

/-- The stable sort of Rust's `Vec::sort_by`, modelled by a stable
insertion sort (stable sorts by the same key are extensionally equal). -/
def sortByKey (key : α → String) (l : List α) : List α :=
  List.insertionSort (fun a b => pathLe (key a) (key b) = true) l

/-- The item stream produced by `Scanner::scan_iter`
(`galdi_core/src/fs_scan.rs`): each walker result is either mapped through
`create_entry` or converted into a `ScanError`. -/
def Scanner.scanItems (s : ScannerRef) (walk : List (Except ScanError DirEntryData)) :
    List (Except ScanError SnapshotEntry) :=
  walk.map (fun r =>
    match r with
    | .ok entry => s.create_entry entry
    | .error err => .error err)

/-- `Scanner::scan` from `galdi_core/src/fs_scan.rs`: drains `scan_iter`,
separates entries from errors, sorts entries by path, sets status
`Ok`/`Partial` from whether any per-entry error occurred.  The Rust function
is declared `-> Result<Snapshot, ScanError>` but every control path returns
`Ok(...)`, so it is embedded as a total function; the collected `errors` only
influence the status and are not attached to the envelope. -/
def Scanner.scan (s : ScannerRef) (walk : List (Except ScanError DirEntryData)) :
    Snapshot :=
  let items := Scanner.scanItems s walk
  let entries := items.filterMap (fun r => r.toOption)
  let errors := items.filterMap (fun r =>
    match r with
    | .error e => some e
    | .ok _ => none)
  let entries := sortByKey SnapshotEntry.path entries
  let status := if errors.isEmpty then Status.ok else Status.part
  { version := "1.0"
    root := s.root
    checksum_algorithm := s.checksum_algorithm
    plumbah :=
      PlumbahObject.new status
        (Meta.new "galdi_snapshot" toolVersion true false true false)
    count := entries.length
    entries := entries }

/-! ## Diff engine (`galdi_diff/src/diff.rs`) -/

/-- `DiffEngine` (= `DiffOptions`) from `galdi_diff/src/diff.rs`. -/
structure DiffEngine where
  ignore_time : Bool
  ignore_mode : Bool
  structure_only : Bool
deriving DecidableEq, Repr

/-- The `changes` vector built by `DiffEngine::compare_entries`
(`galdi_diff/src/diff.rs`): the pushes of the source, in source order
(Type; then unless `structure_only`: Content, Mode, Mtime, Size, Target). -/
def changesList (e : DiffEngine) (src tgt : SnapshotEntry) : List AttributeChange :=
  (if src.entry_type ≠ tgt.entry_type then [AttributeChange.type] else [])
    ++ (if e.structure_only then [] else
      (if src.checksum ≠ tgt.checksum then [AttributeChange.content] else [])
        ++ (if ¬e.ignore_mode ∧ src.mode ≠ tgt.mode then [AttributeChange.mode] else [])
        ++ (if ¬e.ignore_time ∧ src.mtime ≠ tgt.mtime then [AttributeChange.mtime] else [])
        ++ (if src.size ≠ tgt.size then [AttributeChange.size] else [])
        ++ (if src.target ≠ tgt.target then [AttributeChange.target] else []))

/-- `DiffEngine::compare_entries` from `galdi_diff/src/diff.rs`. -/
def DiffEngine.compare_entries (e : DiffEngine) (src tgt : SnapshotEntry) :
    Option Difference :=
  let changes := changesList e src tgt
  if changes.isEmpty then none
  else
    some
      { path := src.path
        change_type := ChangeType.modified
        changes := changes
        source := some src
        target := some tgt
        error := none }

/-- The `HashMap` lookup built in `DiffEngine::diff`
(`entries.iter().map(|e| (e.path.clone(), e.clone())).collect()`): on
duplicate paths the later insertion wins, hence the last matching entry. -/
def pathLookup (entries : List SnapshotEntry) (p : String) : Option SnapshotEntry :=
  (entries.filter (fun e => e.path == p)).getLast?

/-- The `all_paths` `BTreeSet` of `DiffEngine::diff`: the distinct paths of
both sides, iterated in sorted order. -/
def allPathsOf (source target : Snapshot) : List String :=
  sortByKey id
    ((source.entries.map SnapshotEntry.path
      ++ target.entries.map SnapshotEntry.path).dedup)

/-- One iteration of the `for path in all_paths` loop of `DiffEngine::diff`:
updates the running summary and appends at most one `Difference`.  The
`(none, none)` case is `unreachable!()` in the source (every iterated path is
a key of one of the two maps) and is embedded as a no-op. -/
def diffStep (e : DiffEngine) (source_map target_map : String → Option SnapshotEntry)
    (acc : DiffSummary × List Difference) (path : String) :
    DiffSummary × List Difference :=
  match source_map path, target_map path with
  | some src, some tgt =>
    match e.compare_entries src tgt with
    | some d => ({ acc.1 with modified := acc.1.modified + 1 }, acc.2 ++ [d])
    | none => ({ acc.1 with unchanged := acc.1.unchanged + 1 }, acc.2)
  | some src, none =>
      ({ acc.1 with removed := acc.1.removed + 1 },
        acc.2 ++
          [{ path := path
             change_type := ChangeType.removed
             changes := []
             source := some src
             target := none
             error := none }])
  | none, some tgt =>
      ({ acc.1 with added := acc.1.added + 1 },
        acc.2 ++
          [{ path := path
             change_type := ChangeType.added
             changes := []
             source := none
             target := some tgt
             error := none }])
  | none, none => acc

/-- `DiffEngine::diff` from `galdi_diff/src/diff.rs`.  Note the `Meta::new`
call hard-codes the `deterministic` flag to `true` (sixth argument of the
source call, fourth `Bool` here), for every pair of input snapshots. -/
def DiffEngine.diff (e : DiffEngine) (source target : Snapshot) : DiffResult :=
  let source_map := fun p => pathLookup source.entries p
  let target_map := fun p => pathLookup target.entries p
  let all_paths := allPathsOf source target
  let acc := all_paths.foldl (diffStep e source_map target_map) (⟨0, 0, 0, 0⟩, [])
  let differences := sortByKey Difference.path acc.2
  { plumbah :=
      PlumbahObject.new Status.ok
        (Meta.new "galdi_diff" toolVersion true false true true)
    identical := differences.isEmpty
    summary := acc.1
    differences := differences }

/-! ## Snapshot batch application (`galdi_snapshot/src/app.rs`) -/

/-- The untagged `Envelope` of `galdi_snapshot/src/app.rs`. -/
inductive SnapEnvelope
  | snapshot (s : Snapshot)
  | errV (p : PlumbahObject)
deriving DecidableEq, Repr

/-- Status of either snapshot-envelope variant. -/
def SnapEnvelope.statusOf : SnapEnvelope → Status
  | .snapshot s => s.plumbah.status
  | .errV p => p.status

/-- `run_json` from `galdi_snapshot/src/app.rs`: envelope construction and
exit-code computation.  `scanner.scan()` is typed `Result` in the source but
always returns `Ok`, so the `Err` branch (the `Error` envelope) is preserved
here under the same `match result`.  The exit code for a `Snapshot` envelope
is computed from `snapshot.plumbah.meta` being present — not from the status:
any produced `Snapshot` yields exit code 0. -/
def run_json (s : ScannerRef) (walk : List (Except ScanError DirEntryData)) :
    SnapEnvelope × Int :=
  let result : Except ScanError Snapshot := .ok (Scanner.scan s walk)
  let envelope :=
    match result with
    | .ok snapshot => SnapEnvelope.snapshot snapshot
    | .error e =>
        SnapEnvelope.errV
          ((PlumbahObject.new Status.error
              (Meta.new "galdi_snapshot" toolVersion true false true true)).with_errors
            [e.to_plumbah_error])
  let code : Int :=
    match envelope with
    | .snapshot snapshot =>
      match snapshot.plumbah.meta with
      | some _ => 0
      | none => 1
    | .errV err =>
      match err.status with
      | .ok => 0
      | .part => 2
      | .error => 1
  (envelope, code)

/-! ## Diff batch application (`galdi_diff/src/app.rs`) -/

/-- The untagged `Envelope` of `galdi_diff/src/app.rs`. -/
inductive DiffEnvelope
  | result (r : DiffResult)
  | errV (p : PlumbahObject)
deriving DecidableEq, Repr

/-- Status of either diff-envelope variant. -/
def DiffEnvelope.statusOf : DiffEnvelope → Status
  | .result r => r.plumbah.status
  | .errV p => p.status

/-- The input classification performed by `load_snapshot`
(`galdi_diff/src/app.rs`): `"-"` reads a serialized snapshot from stdin, a
`.json` path reads a serialized snapshot file, anything else performs a live
filesystem scan.  `Path::extension() == Some("json")` is modelled as the
`".json"` suffix test. -/
inductive LoadKind
  | stdinJson
  | fileJson
  | liveScan
deriving DecidableEq, Repr

/-- Suffix test on strings, by character list. -/
def strEndsWith (s pat : String) : Bool :=
  decide (pat.data.length ≤ s.data.length)
    && (s.data.drop (s.data.length - pat.data.length) == pat.data)

/-- Which kind of snapshot source `load_snapshot` selects for a path. -/
def load_kind (path : String) : LoadKind :=
  if path = "-" then .stdinJson
  else if strEndsWith path ".json" then .fileJson
  else .liveScan

/-- `run` from `galdi_diff/src/app.rs` (after the two `load_snapshot` calls,
whose outcomes are the two `Except` inputs): envelope construction and
exit-code computation.  The source match arms are `(Ok, Ok)` and
`(Err(e), _) | (_, Err(e))`. -/
def galdi_diff_run (e : DiffEngine)
    (source_result target_result : Except String Snapshot) :
    DiffEnvelope × Int :=
  let envelope :=
    match source_result, target_result with
    | .ok source, .ok target => DiffEnvelope.result (e.diff source target)
    | .error err, _ =>
        DiffEnvelope.errV
          ((PlumbahObject.new Status.error
              (Meta.new "galdi_diff" toolVersion true false true true)).with_errors
            [{ code := "LOAD_ERROR", message := err, path := none
               recoverable := false, context := none }])
    | _, .error err =>
        DiffEnvelope.errV
          ((PlumbahObject.new Status.error
              (Meta.new "galdi_diff" toolVersion true false true true)).with_errors
            [{ code := "LOAD_ERROR", message := err, path := none
               recoverable := false, context := none }])
  let code : Int :=
    match envelope with
    | .result r =>
      match r.plumbah.status with
      | .ok => 0
      | .part => 2
      | .error => 1
    | .errV err =>
      match err.status with
      | .ok => 0
      | .part => 2
      | .error => 1
  (envelope, code)

/-- The status → exit-code mapping that appears (inlined) in the two batch
applications: `Ok → 0`, `Partial → 2`, `Error → 1`. -/
def statusExitCode : Status → Int
  | .ok => 0
  | .part => 2
  | .error => 1

/-! ## Streaming output (`galdi_snapshot/src/output.rs`, `run_jsonl` of
`galdi_snapshot/src/app.rs`)

Each written JSONL line is modelled structurally. -/

/-- One line of JSONL output: the head envelope line (with its extra
`root` / `checksum_algorithm` fields), a bare entry line, an envelope-only
error line, or the tail envelope line. -/
inductive StreamLine
  | head (pl : PlumbahObject) (root : String) (algo : ChecksumAlgorithm)
  | entry (e : SnapshotEntry)
  | errLine (errors : List PlumbahError)
  | tail (pl : PlumbahObject)
deriving DecidableEq, Repr

/-- `StreamingOutput` from `galdi_snapshot/src/output.rs`: the writer is the
accumulated list of lines; `start_time` is wall clock and not modelled. -/
structure StreamingOutput where
  lines : List StreamLine
  total_entries : Nat
  error_count : Nat
deriving DecidableEq, Repr

/-- `StreamingOutput::new`. -/
def StreamingOutput.new : StreamingOutput :=
  { lines := [], total_entries := 0, error_count := 0 }

/-- `StreamingOutput::write_head` from `galdi_snapshot/src/output.rs`. -/
def StreamingOutput.write_head (so : StreamingOutput) (root : String)
    (checksum : ChecksumAlgorithm) (deterministic : Bool) : StreamingOutput :=
  let meta : Meta :=
    { idempotent := true
      mutates := false
      safe := true
      deterministic := deterministic
      plumbah_level := 2
      tool := "galdi_snapshot"
      tool_version := toolVersion }
  { so with
      lines :=
        so.lines ++
          [StreamLine.head
            { version := "1.0"
              stream := some "head"
              status := Status.ok
              meta := some meta
              errors := none
              summary := none
              execution_time_ms := none }
            root checksum] }

/-- `StreamingOutput::write_entry` from `galdi_snapshot/src/output.rs`. -/
def StreamingOutput.write_entry (so : StreamingOutput) (entry : SnapshotEntry) :
    StreamingOutput :=
  { so with
      lines := so.lines ++ [StreamLine.entry entry]
      total_entries := so.total_entries + 1 }

/-- `StreamingOutput::write_error` from `galdi_snapshot/src/output.rs`. -/
def StreamingOutput.write_error (so : StreamingOutput) (error : PlumbahError) :
    StreamingOutput :=
  { so with
      lines := so.lines ++ [StreamLine.errLine [error]]
      error_count := so.error_count + 1 }

/-- `StreamingOutput::write_tail` from `galdi_snapshot/src/output.rs`: status
`Partial` iff the error counter is nonzero; summary
`{total, processed, errors}` from the counters.  The elapsed wall-clock time
is modelled as `0`. -/
def StreamingOutput.write_tail (so : StreamingOutput) : StreamingOutput :=
  let status := if so.error_count > 0 then Status.part else Status.ok
  { so with
      lines :=
        so.lines ++
          [StreamLine.tail
            { version := "1.0"
              stream := some "tail"
              status := status
              meta := none
              errors := none
              summary :=
                some
                  { total := so.total_entries
                    processed := so.total_entries
                    errors := so.error_count }
              execution_time_ms := some 0 }] }

/-- `StreamingOutput::exit_code` from `galdi_snapshot/src/output.rs`. -/
def StreamingOutput.exit_code (_so : StreamingOutput) : Int := 0

/-- `run_jsonl` from `galdi_snapshot/src/app.rs`: write the head (with the
`deterministic` flag hard-wired to `false`), stream every `scan_iter` item as
an entry or error line, always write the tail. -/
def run_jsonl (s : ScannerRef) (walk : List (Except ScanError DirEntryData)) :
    StreamingOutput :=
  let streaming := StreamingOutput.new
  let deterministic := false
  let streaming := streaming.write_head s.root s.checksum_algorithm deterministic
  let streaming :=
    (Scanner.scanItems s walk).foldl
      (fun so r =>
        match r with
        | .ok entry => so.write_entry entry
        | .error e => so.write_error e.to_plumbah_error)
      streaming
  streaming.write_tail

/-! ## Derived views of the diff loop

`diffStep` is the loop body exactly as in the source; the following
definitions name, per path, which of its four branches fires and what it
appends.  They are used to state and prove the loop invariants. -/

/-- The path is a key of `target_map` only: the `Added` branch. -/
def onlyInTarget (smap tmap : String → Option SnapshotEntry) (p : String) : Bool :=
  (smap p).isNone && (tmap p).isSome

/-- The path is a key of `source_map` only: the `Removed` branch. -/
def onlyInSource (smap tmap : String → Option SnapshotEntry) (p : String) : Bool :=
  (smap p).isSome && (tmap p).isNone

/-- Both maps hold the path and `compare_entries` reports a change. -/
def modifiedAt (e : DiffEngine) (smap tmap : String → Option SnapshotEntry)
    (p : String) : Bool :=
  match smap p, tmap p with
  | some src, some tgt => (e.compare_entries src tgt).isSome
  | _, _ => false

/-- Both maps hold the path and `compare_entries` reports no change. -/
def unchangedAt (e : DiffEngine) (smap tmap : String → Option SnapshotEntry)
    (p : String) : Bool :=
  match smap p, tmap p with
  | some src, some tgt => (e.compare_entries src tgt).isNone
  | _, _ => false

/-- The `Difference` (if any) the loop body appends for one path. -/
def diffOne (e : DiffEngine) (smap tmap : String → Option SnapshotEntry)
    (p : String) : Option Difference :=
  match smap p, tmap p with
  | some src, some tgt => e.compare_entries src tgt
  | some src, none =>
      some
        { path := p, change_type := ChangeType.removed, changes := []
          source := some src, target := none, error := none }
  | none, some tgt =>
      some
        { path := p, change_type := ChangeType.added, changes := []
          source := none, target := some tgt, error := none }
  | none, none => none

/-- Total of the four summary counters. -/
def sumOf (s : DiffSummary) : Nat :=
  s.added + s.removed + s.modified + s.unchanged

/-- The middle line `run_jsonl` writes for one `scan_iter` item. -/
def streamLineOf : Except ScanError SnapshotEntry → StreamLine
  | .ok e => .entry e
  | .error err => .errLine [err.to_plumbah_error]

/-! ## Concrete fixtures

Small closed inputs used to evaluate the embedded operations at specific
points (witnessing hypotheses, exhibiting counterexamples). -/

/-- Diff options with nothing ignored (all attributes compared). -/
def cEngine : DiffEngine := ⟨false, false, false⟩

/-- A concrete file entry at path `"a"`. -/
def cEntryA : SnapshotEntry :=
  { path := "a", entry_type := .file, size := some 1, mode := some "644"
    mtime := 0, checksum := some "xxh3_64:00", target := none }

/-- A concrete scanner configuration. -/
def cScanner : ScannerRef := ⟨"/data", .xxh3_64, false⟩

/-- A snapshot holding exactly `cEntryA` (as produced by a scan). -/
def cSnapA : Snapshot :=
  { plumbah :=
      PlumbahObject.new .ok (Meta.new "galdi_snapshot" toolVersion true false true false)
    version := "1.0", root := "/data", checksum_algorithm := .xxh3_64
    count := 1, entries := [cEntryA] }

/-- An empty snapshot over the same root. -/
def cSnapEmpty : Snapshot :=
  { plumbah :=
      PlumbahObject.new .ok (Meta.new "galdi_snapshot" toolVersion true false true false)
    version := "1.0", root := "/data", checksum_algorithm := .xxh3_64
    count := 0, entries := [] }

/-- The `Removed` difference that diffing `cSnapA` against `cSnapEmpty`
reports for path `"a"`. -/
def cDiffRemoved : Difference :=
  { path := "a", change_type := ChangeType.removed, changes := []
    source := some cEntryA, target := none, error := none }

/-- The walk-item stream the `ignore` walker yields for a root that does not
exist: a single walker-level error and no directory entries. -/
def cWalkMissingRoot : List (Except ScanError DirEntryData) :=
  [.error (.ioErr "IO error for operation on /data: No such file or directory (os error 2)")]

/-- A walk item for one ordinary regular file whose probes all succeed. -/
def cDirEntryFile : DirEntryData :=
  { metadata := .ok ⟨false, false, true, 5, 420, .ok 7⟩
    relPath := .ok "f.txt"
    checksumResult := .ok "xxh3_64:00000000000000aa"
    linkTarget := .error (.ioErr "not a symlink") }

/-- A two-item walk: one good file entry plus one per-entry error. -/
def cWalkPartial : List (Except ScanError DirEntryData) :=
  [.ok cDirEntryFile, .error (.permissionDenied "/data/secret")]

/-! ## Supporting lemmas -/

theorem sortByKey_perm (key : α → String) (l : List α) : (sortByKey key l).Perm l :=
  List.perm_insertionSort _ l

theorem mem_sortByKey {key : α → String} {l : List α} {x : α} :
    x ∈ sortByKey key l ↔ x ∈ l :=
  List.mem_insertionSort _

theorem pathLookup_isSome_of_mem {entries : List SnapshotEntry} {p : String}
    (h : p ∈ entries.map SnapshotEntry.path) : (pathLookup entries p).isSome = true := by
  obtain ⟨ent, hent, rfl⟩ := List.mem_map.mp h
  unfold pathLookup
  rw [List.getLast?_isSome]
  intro hnil
  have hmem : ent ∈ List.filter (fun x => x.path == ent.path) entries :=
    List.mem_filter.mpr ⟨hent, by simp⟩
  rw [hnil] at hmem
  exact absurd hmem (List.not_mem_nil ent)

theorem mem_allPathsOf {s t : Snapshot} {p : String} :
    p ∈ allPathsOf s t ↔
      p ∈ s.entries.map SnapshotEntry.path ∨ p ∈ t.entries.map SnapshotEntry.path := by
  unfold allPathsOf
  rw [mem_sortByKey, List.mem_dedup, List.mem_append]

theorem allPathsOf_length (s t : Snapshot) :
    (allPathsOf s t).length =
      ((s.entries.map SnapshotEntry.path).toFinset ∪
        (t.entries.map SnapshotEntry.path).toFinset).card := by
  unfold allPathsOf
  rw [(sortByKey_perm _ _).length_eq, ← List.card_toFinset, List.toFinset_append]

theorem allPathsOf_perm_swap (s t : Snapshot) :
    (allPathsOf s t).Perm (allPathsOf t s) := by
  unfold allPathsOf
  exact (sortByKey_perm _ _).trans
    ((List.Perm.dedup List.perm_append_comm).trans (sortByKey_perm _ _).symm)

/-- Closed form of the `for path in all_paths` loop of `DiffEngine::diff`:
each counter counts the paths on which its branch fires, and the appended
differences are exactly the per-path results, in iteration order. -/
theorem diff_foldl_spec (e : DiffEngine) (smap tmap : String → Option SnapshotEntry)
    (l : List String) :
    ∀ acc : DiffSummary × List Difference,
      l.foldl (diffStep e smap tmap) acc =
        (⟨acc.1.added + l.countP (onlyInTarget smap tmap),
          acc.1.removed + l.countP (onlyInSource smap tmap),
          acc.1.modified + l.countP (modifiedAt e smap tmap),
          acc.1.unchanged + l.countP (unchangedAt e smap tmap)⟩,
          acc.2 ++ l.filterMap (diffOne e smap tmap)) := by
  induction l with
  | nil => intro acc; simp
  | cons p rest ih =>
    intro acc
    rw [List.foldl_cons, ih]
    rcases hs : smap p with _ | a <;> rcases ht : tmap p with _ | b
    · simp only [diffStep, diffOne, onlyInTarget, onlyInSource, modifiedAt, unchangedAt,
        hs, ht, List.countP_cons, List.filterMap_cons, Prod.mk.injEq, DiffSummary.mk.injEq]
      refine ⟨⟨by simp, by simp, by simp, by simp⟩, by simp⟩
    · simp only [diffStep, diffOne, onlyInTarget, onlyInSource, modifiedAt, unchangedAt,
        hs, ht, List.countP_cons, List.filterMap_cons, Prod.mk.injEq, DiffSummary.mk.injEq]
      refine ⟨⟨by simp; omega, by simp, by simp, by simp⟩, by simp⟩
    · simp only [diffStep, diffOne, onlyInTarget, onlyInSource, modifiedAt, unchangedAt,
        hs, ht, List.countP_cons, List.filterMap_cons, Prod.mk.injEq, DiffSummary.mk.injEq]
      refine ⟨⟨by simp, by simp; omega, by simp, by simp⟩, by simp⟩
    · rcases hc : e.compare_entries a b with _ | d
      · simp only [diffStep, diffOne, onlyInTarget, onlyInSource, modifiedAt, unchangedAt,
          hs, ht, hc, List.countP_cons, List.filterMap_cons, Prod.mk.injEq,
          DiffSummary.mk.injEq]
        refine ⟨⟨by simp, by simp, by simp, by simp; omega⟩, by simp⟩
      · simp only [diffStep, diffOne, onlyInTarget, onlyInSource, modifiedAt, unchangedAt,
          hs, ht, hc, List.countP_cons, List.filterMap_cons, Prod.mk.injEq,
          DiffSummary.mk.injEq]
        refine ⟨⟨by simp, by simp, by simp; omega, by simp⟩, by simp⟩

theorem iteSingletonEqNil {c : Prop} [Decidable c] (a : α) :
    ((if c then [a] else []) = []) ↔ ¬c := by
  split_ifs with h <;> simp [h]

/-- When `compare_entries` pushes no change: every compared attribute agrees
(or its comparison is switched off). -/
theorem changesList_eq_nil_iff (e : DiffEngine) (x y : SnapshotEntry) :
    changesList e x y = [] ↔
      x.entry_type = y.entry_type ∧
        (e.structure_only = true ∨
          (x.checksum = y.checksum ∧
            (e.ignore_mode = true ∨ x.mode = y.mode) ∧
            (e.ignore_time = true ∨ x.mtime = y.mtime) ∧
            x.size = y.size ∧ x.target = y.target)) := by
  cases hso : e.structure_only with
  | true =>
    unfold changesList
    rw [hso]
    simp [iteSingletonEqNil]
  | false =>
    unfold changesList
    rw [hso]
    simp only [Bool.false_eq_true, if_false, List.append_eq_nil, iteSingletonEqNil]
    tauto

/-- The emptiness of the change set is symmetric in the two entries. -/
theorem changesList_nil_comm (e : DiffEngine) (x y : SnapshotEntry) :
    changesList e x y = [] ↔ changesList e y x = [] := by
  rw [changesList_eq_nil_iff, changesList_eq_nil_iff]
  constructor <;>
    exact fun ⟨h1, h2⟩ =>
      ⟨h1.symm,
        h2.elim Or.inl fun ⟨a, b, c, d, f⟩ =>
          Or.inr
            ⟨a.symm, b.elim Or.inl fun bb => Or.inr bb.symm,
              c.elim Or.inl fun cc => Or.inr cc.symm, d.symm, f.symm⟩⟩

/-- Whether `compare_entries` reports a modification is symmetric. -/
theorem compare_entries_isSome_comm (e : DiffEngine) (x y : SnapshotEntry) :
    (e.compare_entries x y).isSome = (e.compare_entries y x).isSome := by
  simp only [DiffEngine.compare_entries, List.isEmpty_iff]
  by_cases h : changesList e x y = []
  · rw [if_pos h, if_pos ((changesList_nil_comm e x y).mp h)]
  · rw [if_neg h, if_neg fun hh => h ((changesList_nil_comm e x y).mpr hh)]
    rfl

/-- Shape of a `Modified` difference produced by `compare_entries`. -/
theorem compare_entries_some_shape {e : DiffEngine} {x y : SnapshotEntry}
    {d : Difference} (h : e.compare_entries x y = some d) :
    d.change_type = ChangeType.modified ∧ d.changes ≠ [] ∧
      d.source = some x ∧ d.target = some y ∧ d.error = none := by
  simp only [DiffEngine.compare_entries, List.isEmpty_iff] at h
  split at h
  · cases h
  · rename_i hne
    cases h
    exact ⟨rfl, hne, rfl, rfl, rfl⟩

/-- Closed form of the middle-line loop of `run_jsonl`: one line per
`scan_iter` item, counters counting the `Ok` and `Err` items. -/
theorem stream_foldl_spec (items : List (Except ScanError SnapshotEntry)) :
    ∀ so : StreamingOutput,
      items.foldl
        (fun so r =>
          match r with
          | .ok entry => so.write_entry entry
          | .error e => so.write_error e.to_plumbah_error) so =
        { lines := so.lines ++ items.map streamLineOf
          total_entries := so.total_entries + items.countP (fun r => r.toOption.isSome)
          error_count := so.error_count + items.countP (fun r => r.toOption.isNone) } := by
  induction items with
  | nil => intro so; simp
  | cons r rest ih =>
    intro so
    rw [List.foldl_cons, ih]
    cases r <;>
      simp [StreamingOutput.write_entry, StreamingOutput.write_error, List.countP_cons,
        streamLineOf, Except.toOption, StreamingOutput.mk.injEq] <;>
      omega

/-- The loop of `DiffEngine::diff` increments exactly one summary counter
per iterated path, provided every iterated path is a key of at least one of
the two maps (which holds for `all_paths` by construction). -/
theorem diff_foldl_total (e : DiffEngine) (smap tmap : String → Option SnapshotEntry) :
    ∀ l : List String,
      (∀ p ∈ l, (smap p).isSome = true ∨ (tmap p).isSome = true) →
      ∀ acc : DiffSummary × List Difference,
        sumOf (l.foldl (diffStep e smap tmap) acc).1 = sumOf acc.1 + l.length := by
  intro l
  induction l with
  | nil => intro _ acc; simp
  | cons p rest ih =>
    intro h acc
    rw [List.foldl_cons, ih (fun q hq => h q (List.mem_cons_of_mem _ hq))]
    have hp := h p (List.mem_cons_self _ _)
    rcases hs : smap p with _ | a <;> rcases ht : tmap p with _ | b
    · rw [hs, ht] at hp; simp at hp
    · simp only [diffStep, hs, ht, sumOf, List.length_cons]; omega
    · simp only [diffStep, hs, ht, sumOf, List.length_cons]; omega
    · rcases hc : e.compare_entries a b with _ | d <;>
        · simp only [diffStep, hs, ht, hc, sumOf, List.length_cons]; omega

/-- Any entry `create_entry` successfully returns carries a populated size
and a populated mode. -/
theorem create_entry_ok_shape {s : ScannerRef} {d : DirEntryData} {ent : SnapshotEntry}
    (h : s.create_entry d = .ok ent) :
    ent.size.isSome = true ∧ ent.mode.isSome = true := by
  simp only [ScannerRef.create_entry] at h
  split at h
  · cases h
  · split at h
    · cases h
    · split at h
      · cases h
      · split at h
        · cases h
        · split at h
          · cases h
          · cases h
            exact ⟨rfl, rfl⟩

/-! ## Claims -/

/-- C1: for every pair of snapshots, the summary counters of
`DiffEngine::diff` sum to the number of distinct entry paths present in
either snapshot, and the `identical` flag is true exactly when the
differences list is empty. -/
theorem diff_summary_consistent_and_identical_iff (e : DiffEngine) (s t : Snapshot) :
    ((e.diff s t).summary.added + (e.diff s t).summary.removed +
        (e.diff s t).summary.modified + (e.diff s t).summary.unchanged =
      ((s.entries.map SnapshotEntry.path).toFinset ∪
        (t.entries.map SnapshotEntry.path).toFinset).card) ∧
    ((e.diff s t).identical = true ↔ (e.diff s t).differences = []) := by
  constructor
  · have hcov : ∀ p ∈ allPathsOf s t,
        ((fun p => pathLookup s.entries p) p).isSome = true ∨
          ((fun p => pathLookup t.entries p) p).isSome = true := by
      intro p hp
      rcases mem_allPathsOf.mp hp with h | h
      · exact Or.inl (pathLookup_isSome_of_mem h)
      · exact Or.inr (pathLookup_isSome_of_mem h)
    have htot := diff_foldl_total e (fun p => pathLookup s.entries p)
      (fun p => pathLookup t.entries p) (allPathsOf s t) hcov (⟨0, 0, 0, 0⟩, [])
    simp only [DiffEngine.diff]
    rw [← allPathsOf_length]
    simpa [sumOf] using htot
  · simp only [DiffEngine.diff, List.isEmpty_iff]

/-- C7: swapping the two snapshots swaps the `added` and `removed` counts of
`DiffEngine::diff` and leaves `unchanged` and `modified` invariant. -/
theorem diff_summary_symmetric (e : DiffEngine) (a b : Snapshot) :
    (e.diff a b).summary.added = (e.diff b a).summary.removed ∧
    (e.diff a b).summary.removed = (e.diff b a).summary.added ∧
    (e.diff a b).summary.unchanged = (e.diff b a).summary.unchanged ∧
    (e.diff a b).summary.modified = (e.diff b a).summary.modified := by
  have la := fun p => pathLookup a.entries p
  simp only [DiffEngine.diff, diff_foldl_spec]
  have hswap := allPathsOf_perm_swap a b
  refine ⟨?_, ?_, ?_, ?_⟩ <;> simp only [Nat.zero_add]
  · rw [show onlyInTarget (fun p => pathLookup a.entries p) (fun p => pathLookup b.entries p)
        = onlyInSource (fun p => pathLookup b.entries p) (fun p => pathLookup a.entries p) by
      funext p; unfold onlyInTarget onlyInSource; exact Bool.and_comm _ _]
    exact hswap.countP_eq _
  · rw [show onlyInSource (fun p => pathLookup a.entries p) (fun p => pathLookup b.entries p)
        = onlyInTarget (fun p => pathLookup b.entries p) (fun p => pathLookup a.entries p) by
      funext p; unfold onlyInTarget onlyInSource; exact Bool.and_comm _ _]
    exact hswap.countP_eq _
  · rw [show unchangedAt e (fun p => pathLookup a.entries p) (fun p => pathLookup b.entries p)
        = unchangedAt e (fun p => pathLookup b.entries p) (fun p => pathLookup a.entries p) by
      funext p
      unfold unchangedAt
      rcases h1 : pathLookup a.entries p with _ | x <;>
        rcases h2 : pathLookup b.entries p with _ | y <;> simp only [h1, h2]
      have hcomm := compare_entries_isSome_comm e x y
      rcases hxy : e.compare_entries x y with _ | d₁ <;>
        rcases hyx : e.compare_entries y x with _ | d₂ <;>
        rw [hxy, hyx] at hcomm <;> simp_all]
    exact hswap.countP_eq _
  · rw [show modifiedAt e (fun p => pathLookup a.entries p) (fun p => pathLookup b.entries p)
        = modifiedAt e (fun p => pathLookup b.entries p) (fun p => pathLookup a.entries p) by
      funext p
      unfold modifiedAt
      rcases h1 : pathLookup a.entries p with _ | x <;>
        rcases h2 : pathLookup b.entries p with _ | y <;> simp only [h1, h2]
      exact compare_entries_isSome_comm e x y]
    exact hswap.countP_eq _

/-- C9: every `Difference` produced by `DiffEngine::diff` is `Added`,
`Removed` or `Modified` (never `PermissionDenied`) and carries no error;
`Added`/`Removed` differences carry an empty change list, and `Modified`
differences carry a non-empty change list with both entries present. -/
theorem diff_differences_wellformed (e : DiffEngine) (s t : Snapshot)
    (d : Difference) (hd : d ∈ (e.diff s t).differences) :
    (d.change_type = ChangeType.added ∨ d.change_type = ChangeType.removed ∨
        d.change_type = ChangeType.modified) ∧
      d.error = none ∧
      ((d.change_type = ChangeType.added ∨ d.change_type = ChangeType.removed) →
        d.changes = []) ∧
      (d.change_type = ChangeType.modified →
        d.changes ≠ [] ∧ d.source.isSome = true ∧ d.target.isSome = true) := by
  simp only [DiffEngine.diff, diff_foldl_spec, List.nil_append] at hd
  rw [mem_sortByKey] at hd
  obtain ⟨p, _, hdp⟩ := List.mem_filterMap.mp hd
  unfold diffOne at hdp
  rcases h1 : pathLookup s.entries p with _ | x <;>
    rcases h2 : pathLookup t.entries p with _ | y <;> simp only [h1, h2] at hdp
  · cases hdp
  · cases hdp
    refine ⟨Or.inl rfl, rfl, fun _ => rfl, fun h => ?_⟩
    cases h
  · cases hdp
    refine ⟨Or.inr (Or.inl rfl), rfl, fun _ => rfl, fun h => ?_⟩
    cases h
  · obtain ⟨hmod, hne, hsrc, htgt, herr⟩ := compare_entries_some_shape hdp
    refine ⟨Or.inr (Or.inr hmod), herr, fun h => ?_, fun _ => ⟨hne, ?_, ?_⟩⟩
    · rcases h with h | h <;> rw [hmod] at h <;> cases h
    · rw [hsrc]; rfl
    · rw [htgt]; rfl

/-- C9 witness: diffing a one-entry snapshot against the empty snapshot
emits the `Removed` difference at path `"a"`, which is well-formed. -/
theorem diff_differences_wellformed_witness :
    cDiffRemoved ∈ (cEngine.diff cSnapA cSnapEmpty).differences ∧
      ((cDiffRemoved.change_type = ChangeType.added ∨
          cDiffRemoved.change_type = ChangeType.removed ∨
          cDiffRemoved.change_type = ChangeType.modified) ∧
        cDiffRemoved.error = none ∧
        ((cDiffRemoved.change_type = ChangeType.added ∨
            cDiffRemoved.change_type = ChangeType.removed) →
          cDiffRemoved.changes = []) ∧
        (cDiffRemoved.change_type = ChangeType.modified →
          cDiffRemoved.changes ≠ [] ∧ cDiffRemoved.source.isSome = true ∧
            cDiffRemoved.target.isSome = true)) :=
  ⟨by decide, diff_differences_wellformed cEngine cSnapA cSnapEmpty cDiffRemoved (by decide)⟩

/-- An `Ok`-counting and an `Err`-counting of an item stream add up to its
length. -/
theorem countP_ok_add_err (items : List (Except ScanError SnapshotEntry)) :
    items.countP (fun r => r.toOption.isSome) +
        items.countP (fun r => r.toOption.isNone) =
      items.length := by
  have hfun : (fun (r : Except ScanError SnapshotEntry) => r.toOption.isNone) =
      fun (r : Except ScanError SnapshotEntry) =>
        decide ¬(fun (r : Except ScanError SnapshotEntry) => r.toOption.isSome) r = true := by
    funext r
    cases r <;> rfl
  rw [hfun]
  exact (List.length_eq_countP_add_countP _ _).symm

/-- C6: a streaming run over `k` produced entries and `e` per-entry errors
writes exactly `k + e + 2` lines; the first is the `head` envelope, the last
is the `tail` envelope with `summary.total = k`, `summary.errors = e`,
status `Partial` iff `e > 0` and `Ok` otherwise; the tail is written even
for `k = e = 0`. -/
theorem streaming_framing (s : ScannerRef) (walk : List (Except ScanError DirEntryData)) :
    ((run_jsonl s walk).lines.length =
        (Scanner.scanItems s walk).countP (fun r => r.toOption.isSome) +
          (Scanner.scanItems s walk).countP (fun r => r.toOption.isNone) + 2) ∧
      (∃ pl root algo,
        (run_jsonl s walk).lines.head? = some (StreamLine.head pl root algo) ∧
          pl.stream = some "head") ∧
      (∃ pl,
        (run_jsonl s walk).lines.getLast? = some (StreamLine.tail pl) ∧
          pl.stream = some "tail" ∧
          pl.summary =
            some
              ⟨(Scanner.scanItems s walk).countP (fun r => r.toOption.isSome),
                (Scanner.scanItems s walk).countP (fun r => r.toOption.isSome),
                (Scanner.scanItems s walk).countP (fun r => r.toOption.isNone)⟩ ∧
          pl.status =
            (if 0 < (Scanner.scanItems s walk).countP (fun r => r.toOption.isNone) then
              Status.part
            else Status.ok) ∧
          (pl.status = Status.part ↔
            0 < (Scanner.scanItems s walk).countP (fun r => r.toOption.isNone))) := by
  have hlen := countP_ok_add_err (Scanner.scanItems s walk)
  simp only [run_jsonl, stream_foldl_spec, StreamingOutput.new, StreamingOutput.write_head,
    StreamingOutput.write_tail, List.nil_append, Nat.zero_add, List.singleton_append]
  refine ⟨?_, ?_, ?_⟩
  · simp only [List.length_append, List.length_cons, List.length_map, List.length_nil]
    omega
  · exact ⟨_, s.root, s.checksum_algorithm, rfl, rfl⟩
  · refine ⟨_, List.getLast?_concat _, rfl, rfl, rfl, ?_⟩
    by_cases he : 0 < (Scanner.scanItems s walk).countP (fun r => r.toOption.isNone)
    · simp [he]
    · simp [he]

/-- C10: every entry the scanner produces — through the streaming
`scan_iter` item stream or the batch `scan` result — has a populated `size`
and a populated `mode`, even though the data model declares both optional. -/
theorem scanner_populates_size_and_mode (s : ScannerRef)
    (walk : List (Except ScanError DirEntryData)) (ent : SnapshotEntry)
    (h : Except.ok ent ∈ Scanner.scanItems s walk ∨
      ent ∈ (Scanner.scan s walk).entries) :
    ent.size.isSome = true ∧ ent.mode.isSome = true := by
  have hitem : Except.ok ent ∈ Scanner.scanItems s walk := by
    rcases h with h | h
    · exact h
    · simp only [Scanner.scan] at h
      rw [mem_sortByKey] at h
      obtain ⟨r, hr, hro⟩ := List.mem_filterMap.mp h
      cases r with
      | ok e' =>
        cases hro
        exact hr
      | error e' => cases hro
  obtain ⟨w, _, hwe⟩ := List.mem_map.mp hitem
  cases w with
  | ok d => exact create_entry_ok_shape hwe
  | error e' => cases hwe

/-- C10 witness: the entry scanned for `cDirEntryFile` has both fields. -/
theorem scanner_populates_size_and_mode_witness :
    (∃ ent : SnapshotEntry,
      (Except.ok ent ∈ Scanner.scanItems cScanner [.ok cDirEntryFile] ∨
        ent ∈ (Scanner.scan cScanner [.ok cDirEntryFile]).entries) ∧
      ent.size.isSome = true ∧ ent.mode.isSome = true) := by
  refine ⟨cScanner.create_entry cDirEntryFile |>.toOption.get (by decide), ?_⟩
  refine ⟨Or.inl (by decide), ?_⟩
  exact scanner_populates_size_and_mode cScanner [.ok cDirEntryFile] _ (Or.inl (by decide))

/-- C5: the `ChecksumAlgorithm` enum of `galdi_core/src/snapshot.rs` has
exactly two variants and its `FromStr` rejects `"blake3"`, even though
`galdi_core/src/checksum.rs` implements the third (tree-hash) algorithm with
a `"blake3:" ++ 64 lowercase hex` output format and `get_hasher` / the test
generators refer to a `ChecksumAlgorithm::Blake3` variant that does not
exist: the name that the spec (and the rest of the code) treat as supported
does not parse. -/
theorem checksum_blake3_missing_from_enum :
    ChecksumAlgorithm.fromStr "blake3" =
        Except.error "Invalid checksum algorithm: blake3" ∧
      ChecksumAlgorithm.fromStr "xxh3_64" = Except.ok ChecksumAlgorithm.xxh3_64 ∧
      ChecksumAlgorithm.fromStr "sha256" = Except.ok ChecksumAlgorithm.sha256 ∧
      (∀ a : ChecksumAlgorithm,
        a = ChecksumAlgorithm.xxh3_64 ∨ a = ChecksumAlgorithm.sha256) ∧
      Blake3Hasher.format 0 =
        "blake3:0000000000000000000000000000000000000000000000000000000000000000" := by
  refine ⟨by decide, by decide, by decide, ?_, by decide⟩
  intro a
  cases a
  · exact Or.inl rfl
  · exact Or.inr rfl

/-- C4: `load_snapshot` classifies a non-`.json` path as a live filesystem
scan, yet `DiffEngine::diff` stamps `deterministic = true` into the result
envelope for every pair of inputs — the flag never depends on whether the
inputs were reloaded snapshots or live scans. -/
theorem diff_deterministic_flag_hardcoded :
    load_kind "some_dir" = LoadKind.liveScan ∧
      ∀ (e : DiffEngine) (s t : Snapshot),
        ((e.diff s t).plumbah.meta).map Meta.deterministic = some true := by
  refine ⟨by decide, ?_⟩
  intro e s t
  simp [DiffEngine.diff, PlumbahObject.new, Meta.new]

/-- A walk consisting only of error items contributes no entries. -/
theorem scanItems_all_errors_entries_nil (s : ScannerRef) :
    ∀ walk : List (Except ScanError DirEntryData),
      (∀ w ∈ walk, w.toOption = none) →
      (Scanner.scanItems s walk).filterMap (fun r => r.toOption) = [] := by
  intro walk
  induction walk with
  | nil => intro _; rfl
  | cons w rest ih =>
    intro h
    have hw := h w (List.mem_cons_self _ _)
    cases w with
    | ok d => simp [Except.toOption] at hw
    | error err =>
      simp only [Scanner.scanItems, List.map_cons, List.filterMap_cons, Except.toOption]
      exact ih fun q hq => h q (List.mem_cons_of_mem _ hq)

/-- C2 counterexample: on the walk the `ignore` walker produces for a
nonexistent root (a single walker-level error, no entries), the snapshot
batch workflow emits a `Snapshot` envelope with status `Partial` — not a
top-level `Error` envelope. -/
theorem scan_missing_root_not_error_envelope :
    (run_json cScanner cWalkMissingRoot).1 =
        SnapEnvelope.snapshot (Scanner.scan cScanner cWalkMissingRoot) ∧
      (Scanner.scan cScanner cWalkMissingRoot).plumbah.status = Status.part ∧
      (Scanner.scan cScanner cWalkMissingRoot).entries = [] ∧
      (run_json cScanner cWalkMissingRoot).1.statusOf ≠ Status.error := by
  refine ⟨by decide, by decide, by decide, by decide⟩

/-- C2 (amended): a snapshot file that fails to load in the diff workflow
produces a top-level `Error` envelope with no data, as claimed; but a scan
whose root does not exist (the walker yields only error items) still
completes as a `Snapshot` envelope with status `Partial` and no entries —
`Scanner::scan` never aborts, so no `Error` envelope arises on the snapshot
side. -/
theorem error_envelope_only_for_failed_load (e : DiffEngine) (msg : String)
    (tr : Except String Snapshot) (s : ScannerRef)
    (walk : List (Except ScanError DirEntryData))
    (hErrOnly : ∀ w ∈ walk, w.toOption = none) (hne : walk ≠ []) :
    ((galdi_diff_run e (Except.error msg) tr).1.statusOf = Status.error ∧
      (∃ p, (galdi_diff_run e (Except.error msg) tr).1 = DiffEnvelope.errV p) ∧
      (galdi_diff_run e tr (Except.error msg)).1.statusOf = Status.error) ∧
      ((run_json s walk).1 = SnapEnvelope.snapshot (Scanner.scan s walk) ∧
        (Scanner.scan s walk).plumbah.status = Status.part ∧
        (Scanner.scan s walk).entries = []) := by
  refine ⟨?_, rfl, ?_, ?_⟩
  · cases tr <;> exact ⟨rfl, ⟨_, rfl⟩, rfl⟩
  · rcases hwalk : walk with _ | ⟨w, rest⟩
    · exact absurd hwalk hne
    · have hw := hErrOnly w (by rw [hwalk]; exact List.mem_cons_self _ _)
      cases w with
      | ok d => simp [Except.toOption] at hw
      | error err =>
        simp [Scanner.scan, Scanner.scanItems, PlumbahObject.new, List.filterMap_cons]
  · simp only [Scanner.scan]
    rw [scanItems_all_errors_entries_nil s walk hErrOnly]
    rfl

/-- C2 witness for the amended statement, at the missing-root walk. -/
theorem error_envelope_only_for_failed_load_witness :
    ((∀ w ∈ cWalkMissingRoot, w.toOption = none) ∧ cWalkMissingRoot ≠ []) ∧
      (((galdi_diff_run cEngine (Except.error "failed to parse snapshot")
            (Except.ok cSnapA)).1.statusOf = Status.error ∧
        (∃ p, (galdi_diff_run cEngine (Except.error "failed to parse snapshot")
            (Except.ok cSnapA)).1 = DiffEnvelope.errV p) ∧
        (galdi_diff_run cEngine (Except.ok cSnapA)
            (Except.error "failed to parse snapshot")).1.statusOf = Status.error) ∧
      ((run_json cScanner cWalkMissingRoot).1 =
          SnapEnvelope.snapshot (Scanner.scan cScanner cWalkMissingRoot) ∧
        (Scanner.scan cScanner cWalkMissingRoot).plumbah.status = Status.part ∧
        (Scanner.scan cScanner cWalkMissingRoot).entries = [])) :=
  ⟨⟨by decide, by decide⟩,
    error_envelope_only_for_failed_load cEngine "failed to parse snapshot"
      (Except.ok cSnapA) cScanner cWalkMissingRoot (by decide) (by decide)⟩

/-- C3 counterexample: a batch scan with one good entry and one per-entry
error yields a `Partial` envelope, yet the snapshot workflow exits 0 rather
than 2. -/
theorem snapshot_partial_exit_code_zero :
    (run_json cScanner cWalkPartial).1.statusOf = Status.part ∧
      (run_json cScanner cWalkPartial).2 = 0 ∧
      statusExitCode Status.part = 2 := by
  refine ⟨by decide, by decide, by decide⟩

/-- C3 (amended): the diff batch workflow maps envelope status to exit code
as specified (`Ok → 0`, `Error → 1`, `Partial → 2`); the snapshot batch
workflow computes its exit code from the presence of envelope metadata
instead and exits 0 for every produced `Snapshot` envelope — including
`Partial` ones. -/
theorem exit_codes_by_workflow :
    (∀ (e : DiffEngine) (sr tr : Except String Snapshot),
      (galdi_diff_run e sr tr).2 =
        statusExitCode (galdi_diff_run e sr tr).1.statusOf) ∧
      (∀ (s : ScannerRef) (walk : List (Except ScanError DirEntryData)),
        (run_json s walk).2 = 0 ∧
        (run_json s walk).1 = SnapEnvelope.snapshot (Scanner.scan s walk)) := by
  constructor
  · intro e sr tr
    cases sr <;> cases tr <;>
      simp [galdi_diff_run, DiffEnvelope.statusOf, statusExitCode, DiffEngine.diff,
        PlumbahObject.new, PlumbahObject.with_errors, Meta.new]
  · intro s walk
    exact ⟨rfl, rfl⟩

/-- C8 counterexample: a batch scan that hits a per-entry error produces a
`Partial` envelope whose `errors` field is `None` — the collected per-entry
errors are not attached. -/
theorem scan_partial_drops_errors :
    (Scanner.scan cScanner cWalkPartial).plumbah.status = Status.part ∧
      (Scanner.scan cScanner cWalkPartial).plumbah.errors = none := by
  refine ⟨by decide, by decide⟩

/-- C8 (amended): every batch scan with one or more per-entry errors sets
envelope status `Partial`, but attaches no `errors` array to the envelope
(`Scanner::scan` drops the collected errors after counting them); the
per-entry error details are only observable in streaming mode. -/
theorem scan_partial_envelope_errors_none (s : ScannerRef)
    (walk : List (Except ScanError DirEntryData))
    (h : 0 < (Scanner.scanItems s walk).countP (fun r => r.toOption.isNone)) :
    (Scanner.scan s walk).plumbah.status = Status.part ∧
      (Scanner.scan s walk).plumbah.errors = none := by
  obtain ⟨r, hr, hp⟩ := List.countP_pos_iff.mp h
  constructor
  · have hmem : ∃ err, err ∈ (Scanner.scanItems s walk).filterMap
        (fun r => match r with | .error e => some e | .ok _ => none) := by
      cases r with
      | ok d => simp [Except.toOption] at hp
      | error err =>
        exact ⟨err, List.mem_filterMap.mpr ⟨_, hr, rfl⟩⟩
    obtain ⟨err, hmem⟩ := hmem
    simp only [Scanner.scan, PlumbahObject.new]
    rw [if_neg]
    rw [List.isEmpty_iff]
    intro hnil
    rw [hnil] at hmem
    exact List.not_mem_nil _ hmem
  · simp [Scanner.scan, PlumbahObject.new]

/-- C8 witness for the amended statement, at the partial walk. -/
theorem scan_partial_envelope_errors_none_witness :
    (0 < (Scanner.scanItems cScanner cWalkPartial).countP
        (fun r => r.toOption.isNone)) ∧
      ((Scanner.scan cScanner cWalkPartial).plumbah.status = Status.part ∧
        (Scanner.scan cScanner cWalkPartial).plumbah.errors = none) :=
  ⟨by decide, scan_partial_envelope_errors_none cScanner cWalkPartial (by decide)⟩

end Galdi
